import Mathlib

/-!
Shallow embedding of `amieclient/usage.py`.

Python values that flow through this module (dictionary entries, record
fields) are modelled by `PyVal`; Python `None` is `PyVal.none`, dictionaries
are insertion-ordered association lists, and the runtime exceptions the code
can raise are the constructors of `PyErr`.  Fallible Python code is modelled
as `Except PyErr _`.
-/

set_option autoImplicit false

inductive PyVal where
  | none  : PyVal
  | str   : String → PyVal
  | dict  : List (String × PyVal) → PyVal
  | list  : List PyVal → PyVal
  | tuple : List PyVal → PyVal


inductive PyErr where
  | keyError : String → PyErr
  | typeError : String → PyErr
  | nameError : String → PyErr
  | attributeError : String → PyErr
  | usageMessageException : String → PyErr


/-- First-match lookup in an (insertion-ordered) Python dictionary. -/
def dictGet? : List (String × PyVal) → String → Option PyVal
  | [], _ => Option.none
  | (k, v) :: rest, key => if k = key then Option.some v else dictGet? rest key

/-- Python `d[key]`: `KeyError` on a missing key, `TypeError` when the value
subscripted is not a dictionary. -/
def PyVal.getItem : PyVal → String → Except PyErr PyVal
  | PyVal.dict entries, key =>
      match dictGet? entries key with
      | Option.some v => Except.ok v
      | Option.none => Except.error (PyErr.keyError key)
  | _, _ => Except.error (PyErr.typeError "object is not subscriptable")

/-- Python `d.get(key)`: `None` on a missing key; `AttributeError` when the
receiver is not a dictionary. -/
def PyVal.getDefault : PyVal → String → Except PyErr PyVal
  | PyVal.dict entries, key => Except.ok ((dictGet? entries key).getD PyVal.none)
  | _, _ => Except.error (PyErr.attributeError "get")

/-- Python `v is not None`. -/
def isNotNoneB : PyVal → Bool
  | PyVal.none => false
  | _ => true

/-- The `UsageAttributes` namedtuple: fields in declaration order
`node_count, cpu_core_count, job_name, memory, queue`. -/
structure UsageAttributes where
  node_count : PyVal
  cpu_core_count : PyVal
  job_name : PyVal
  memory : PyVal
  queue : PyVal


structure ComputeUsageRecord where
  attributes : UsageAttributes
  parent_record_id : PyVal
  charge : PyVal
  end_time : PyVal
  local_project_id : PyVal
  local_record_id : PyVal
  resource : PyVal
  start_time : PyVal
  submit_time : PyVal
  username : PyVal


/-- `ComputeUsageRecord.__init__`.  The source line
`self.parent_record_id = parent_record_id,` ends in a comma, so Python stores
the 1-tuple `(parent_record_id,)`, never the bare argument; this is modelled
by `PyVal.tuple [parent_record_id]`.  No argument is validated. -/
def ComputeUsageRecord.init
    (parent_record_id queue cpu_core_count job_name memory charge end_time
     local_project_id local_record_id resource start_time submit_time username
     node_count : PyVal) : ComputeUsageRecord :=
  { attributes := { node_count := node_count, cpu_core_count := cpu_core_count,
                    job_name := job_name, memory := memory, queue := queue }
    parent_record_id := PyVal.tuple [parent_record_id]
    charge := charge
    end_time := end_time
    local_project_id := local_project_id
    local_record_id := local_record_id
    resource := resource
    start_time := start_time
    submit_time := submit_time
    username := username }

/-- `ComputeUsageRecord.from_dict`.  Required keys are read with `[...]`
(`KeyError` when absent), optional ones with `.get(...)` (`None` when
absent), in the evaluation order of the source's call. -/
def ComputeUsageRecord.from_dict (input : PyVal) : Except PyErr ComputeUsageRecord := do
  let username ← input.getItem "Username"
  let local_project_id ← input.getItem "LocalProjectID"
  let local_record_id ← input.getItem "LocalRecordID"
  let resource ← input.getItem "Resource"
  let submit_time ← input.getItem "SubmitTime"
  let start_time ← input.getItem "StartTime"
  let end_time ← input.getItem "EndTime"
  let charge ← input.getItem "Charge"
  let attrs ← input.getItem "Attributes"
  let node_count ← attrs.getItem "NodeCount"
  let cpu_core_count ← attrs.getDefault "CpuCoreCount"
  let job_name ← attrs.getDefault "JobName"
  let memory ← attrs.getDefault "Memory"
  let queue ← attrs.getDefault "Queue"
  let parent_record_id ← input.getDefault "ParentRecordID"
  return ComputeUsageRecord.init parent_record_id queue cpu_core_count job_name
    memory charge end_time local_project_id local_record_id resource start_time
    submit_time username node_count

/-- `ComputeUsageRecord.as_dict`.  The attributes sub-dictionary is built from
`self.attributes._asdict().items()`, i.e. with the namedtuple FIELD names
(`node_count`, `cpu_core_count`, `job_name`, `memory`, `queue`) as keys,
skipping `None` values; `ParentRecordID` is appended when
`self.parent_record_id is not None` (which, given the tuple-wrapping in
`__init__`, always holds for constructed records). -/
def ComputeUsageRecord.as_dict (r : ComputeUsageRecord) : PyVal :=
  let attributes :=
    List.filter (fun p => isNotNoneB p.2)
      [("node_count", r.attributes.node_count),
       ("cpu_core_count", r.attributes.cpu_core_count),
       ("job_name", r.attributes.job_name),
       ("memory", r.attributes.memory),
       ("queue", r.attributes.queue)]
  let base :=
    [("Username", r.username),
     ("LocalProjectID", r.local_project_id),
     ("LocalRecordID", r.local_record_id),
     ("Resource", r.resource),
     ("SubmitTime", r.submit_time),
     ("StartTime", r.start_time),
     ("EndTime", r.end_time),
     ("Charge", r.charge),
     ("Attributes", PyVal.dict attributes)]
  match r.parent_record_id with
  | PyVal.none => PyVal.dict base
  | _ => PyVal.dict (base ++ [("ParentRecordID", r.parent_record_id)])

/-- Python `str.lower()` (ASCII model). -/
def pyLower (s : String) : String :=
  String.mk (s.data.map Char.toLower)

/-- Python `str.capitalize()`: first character upper-cased, the rest
lower-cased (ASCII model). -/
def pyCapitalize (s : String) : String :=
  match s.data with
  | [] => ""
  | c :: cs => String.mk (c.toUpper :: cs.map Char.toLower)

/-- `usage_type.lower().capitalize()` from `UsageMessage.__init__`. -/
def normalizeUsageType (s : String) : String :=
  pyCapitalize (pyLower s)

/-- A `UsageMessage` object.  The source's `__init__` assigns ONLY
`self.records`; it computes and validates the normalized usage type `ut` but
never stores it, so the object has no `usage_type` attribute.  The
`usage_type` field below is the optional attribute slot: `Option.none` means
the attribute is absent (reading it raises `AttributeError`). -/
structure UsageMessage where
  records : List ComputeUsageRecord
  usage_type : Option String

/-- Reading `self.usage_type`; `AttributeError` when the attribute was never
assigned. -/
def UsageMessage.getUsageType (m : UsageMessage) : Except PyErr String :=
  match m.usage_type with
  | Option.some s => Except.ok s
  | Option.none => Except.error (PyErr.attributeError "usage_type")

/-- `UsageMessage.__init__`: normalizes the usage type, raises
`UsageMessageException` when the normalized value is not one of
`['Compute', 'Storage', 'Adjustment']`, then assigns `self.records` only
(the computed `ut` is never assigned to `self.usage_type`). -/
def UsageMessage.init (usage_type : String) (records : List ComputeUsageRecord) :
    Except PyErr UsageMessage :=
  let ut := normalizeUsageType usage_type
  if ut = "Compute" ∨ ut = "Storage" ∨ ut = "Adjustment" then
    Except.ok { records := records, usage_type := Option.none }
  else
    Except.error (PyErr.usageMessageException ("Invalid usage type " ++ ut))

/-- Number of items Python iteration over a value yields (dict iteration
yields its keys, string iteration its characters); `TypeError` for
non-iterables. -/
def pyIterLen : PyVal → Except PyErr Nat
  | PyVal.dict l => Except.ok l.length
  | PyVal.list l => Except.ok l.length
  | PyVal.tuple l => Except.ok l.length
  | PyVal.str s => Except.ok s.length
  | PyVal.none => Except.error (PyErr.typeError "object is not iterable")

/-- Calling `cls(ut, records)` with a wire value as `usage_type`: `__init__`
calls `usage_type.lower()`, which raises `AttributeError` unless the value is
a string. -/
def UsageMessage.initVal (usage_type : PyVal) (records : List ComputeUsageRecord) :
    Except PyErr UsageMessage :=
  match usage_type with
  | PyVal.str s => UsageMessage.init s records
  | _ => Except.error (PyErr.attributeError "lower")

/-- `UsageMessage.from_dict`.  The comprehension
`[UsageRecord.from_dict(d) for d in input_dict['Records']]` references the
global name `UsageRecord`, which the module never defines (the record class
is `ComputeUsageRecord`), so evaluating the comprehension body raises
`NameError` at the first iteration; an empty iterable yields `[]` without
ever evaluating the body. -/
def UsageMessage.from_dict (input : PyVal) : Except PyErr UsageMessage := do
  let ut ← input.getItem "UsageType"
  let recs ← input.getItem "Records"
  let n ← pyIterLen recs
  if n = 0 then
    UsageMessage.initVal ut []
  else
    Except.error (PyErr.nameError "UsageRecord")

/-- `UsageMessage.as_dict`: the dictionary literal reads `self.usage_type`
first (raising `AttributeError` when absent), then maps `as_dict` over the
records. -/
def UsageMessage.as_dict (m : UsageMessage) : Except PyErr PyVal := do
  let ut ← m.getUsageType
  return PyVal.dict
    [("UsageType", PyVal.str ut),
     ("Records", PyVal.list (m.records.map ComputeUsageRecord.as_dict))]

/-- Python `range(0, stop, step)` for a positive `step`, as the list of
indices visited by `UsageMessage._chunked`. -/
def pyRange (stop step : Nat) : List Nat :=
  (List.range ((stop + step - 1) / step)).map (fun k => k * step)

/-- One pass of the generator loop in `UsageMessage._chunked`, with the
receiver `self` threaded explicitly so that any mutation of it would be
visible: each iteration slices `self.records[i:i+chunk_size]`, reads
`self.usage_type` and builds `self.__class__(self.usage_type, r)`; the body
contains no assignment to `self`, so `self` is passed through unchanged. -/
def UsageMessage.chunkedLoop (self : UsageMessage) (chunk_size : Nat) :
    List Nat → Except PyErr (List UsageMessage) × UsageMessage
  | [] => (Except.ok [], self)
  | i :: rest =>
      let r := (self.records.drop i).take chunk_size
      match self.getUsageType with
      | Except.error e => (Except.error e, self)
      | Except.ok ut =>
          match UsageMessage.init ut r with
          | Except.error e => (Except.error e, self)
          | Except.ok msg =>
              match UsageMessage.chunkedLoop self chunk_size rest with
              | (Except.ok more, s) => (Except.ok (msg :: more), s)
              | (Except.error e, s) => (Except.error e, s)

/-- Running `UsageMessage._chunked(chunk_size)` to exhaustion: the list of
yielded messages (or the exception that escaped the generator) together with
the receiver as it stands after the iteration. -/
def UsageMessage.chunkedRun (m : UsageMessage) (chunk_size : Nat) :
    Except PyErr (List UsageMessage) × UsageMessage :=
  UsageMessage.chunkedLoop m chunk_size (pyRange m.records.length chunk_size)

/-- The sequence produced by `UsageMessage._chunked(chunk_size)`. -/
def UsageMessage.chunked (m : UsageMessage) (chunk_size : Nat) :
    Except PyErr (List UsageMessage) :=
  (UsageMessage.chunkedRun m chunk_size).1

/-- `Except` success test. -/
def exceptIsOk {ε α : Type} : Except ε α → Bool
  | Except.ok _ => true
  | Except.error _ => false

/-- The eight required top-level wire keys of a compute usage record. -/
def requiredTop : List String :=
  ["Username", "LocalProjectID", "LocalRecordID", "Resource",
   "SubmitTime", "StartTime", "EndTime", "Charge"]

/-- A fully-populated conforming wire record, used as a concrete probe. -/
def sampleWire : PyVal :=
  PyVal.dict
    [("Username", PyVal.str "jdoe"),
     ("LocalProjectID", PyVal.str "proj1"),
     ("LocalRecordID", PyVal.str "rec1"),
     ("Resource", PyVal.str "cluster1"),
     ("SubmitTime", PyVal.str "t0"),
     ("StartTime", PyVal.str "t1"),
     ("EndTime", PyVal.str "t2"),
     ("Charge", PyVal.str "10"),
     ("Attributes", PyVal.dict
        [("NodeCount", PyVal.str "2"),
         ("CpuCoreCount", PyVal.str "8"),
         ("JobName", PyVal.str "job"),
         ("Memory", PyVal.str "64"),
         ("Queue", PyVal.str "normal")]),
     ("ParentRecordID", PyVal.str "parent1")]

/-- A concrete record as the constructor builds it from `sampleWire`-like
arguments, used as a concrete probe in witnesses. -/
def sampleRecord : ComputeUsageRecord :=
  ComputeUsageRecord.init (PyVal.str "parent1") (PyVal.str "normal")
    (PyVal.str "8") (PyVal.str "job") (PyVal.str "64") (PyVal.str "10")
    (PyVal.str "t2") (PyVal.str "proj1") (PyVal.str "rec1")
    (PyVal.str "cluster1") (PyVal.str "t1") (PyVal.str "t0")
    (PyVal.str "jdoe") (PyVal.str "2")

/-- Wire-record entries with the required `Username` key removed. -/
def entriesMissingUsername : List (String × PyVal) :=
  [("LocalProjectID", PyVal.str "proj1"),
   ("LocalRecordID", PyVal.str "rec1"),
   ("Resource", PyVal.str "cluster1"),
   ("SubmitTime", PyVal.str "t0"),
   ("StartTime", PyVal.str "t1"),
   ("EndTime", PyVal.str "t2"),
   ("Charge", PyVal.str "10"),
   ("Attributes", PyVal.dict [("NodeCount", PyVal.str "1")])]

/-- Wire-record entries with every required key present and every optional
key absent. -/
def entriesRequiredOnly : List (String × PyVal) :=
  [("Username", PyVal.str "jdoe"),
   ("LocalProjectID", PyVal.str "proj1"),
   ("LocalRecordID", PyVal.str "rec1"),
   ("Resource", PyVal.str "cluster1"),
   ("SubmitTime", PyVal.str "t0"),
   ("StartTime", PyVal.str "t1"),
   ("EndTime", PyVal.str "t2"),
   ("Charge", PyVal.str "10"),
   ("Attributes", PyVal.dict [("NodeCount", PyVal.str "1")])]

/-! ## Helper lemmas -/

/-- `Except` bind on a success. -/
theorem except_bind_ok {ε α β : Type} (a : α) (f : α → Except ε β) :
    (Except.ok a >>= f : Except ε β) = f a := rfl

/-- `Except` bind on a failure. -/
theorem except_bind_error {ε α β : Type} (e : ε) (f : α → Except ε β) :
    (Except.error e >>= f : Except ε β) = Except.error e := rfl

/-- Looking a key up in a filtered association list none of whose entries
carry that key yields nothing. -/
theorem dictGet_filter_eq_none (l : List (String × PyVal))
    (f : String × PyVal → Bool) (k : String)
    (h : ∀ p ∈ l, p.1 ≠ k) : dictGet? (List.filter f l) k = Option.none := by
  induction l with
  | nil => rfl
  | cons p rest ih =>
      have hp : p.1 ≠ k := h p (List.mem_cons_self p rest)
      have hrest : ∀ q ∈ rest, q.1 ≠ k := fun q hq => h q (List.mem_cons_of_mem p hq)
      cases hf : f p with
      | true => simp [List.filter, hf, dictGet?, hp, ih hrest]
      | false => simp [List.filter, hf, ih hrest]

/-- The only shape `UsageMessage.__init__` can successfully produce: the given
records, and no `usage_type` attribute. -/
theorem init_ok_shape (s : String) (recs : List ComputeUsageRecord)
    (m : UsageMessage) (h : UsageMessage.init s recs = Except.ok m) :
    m = { records := recs, usage_type := Option.none } := by
  simp only [UsageMessage.init] at h
  split at h
  · cases h
    rfl
  · cases h

/-- The body of the `_chunked` generator loop contains no assignment to
`self`, so the threaded receiver comes out of the loop unchanged. -/
theorem chunkedLoop_preserves_self (m : UsageMessage) (c : Nat) :
    ∀ l : List Nat, (UsageMessage.chunkedLoop m c l).2 = m := by
  intro l
  induction l with
  | nil => rfl
  | cons i rest ih =>
      simp only [UsageMessage.chunkedLoop]
      split
      · rfl
      · split
        · rfl
        · split
          next more s heq =>
              rw [heq] at ih
              simpa using ih
          next e s heq =>
              rw [heq] at ih
              simpa using ih

/-! ## Claim theorems -/

/-- Claim C1: the round-trip `from_dict(record.as_dict)` is claimed to
succeed and reproduce `as_dict`.  In fact, for EVERY record the constructor
can build (with or without a parent record id), `from_dict(record.as_dict)`
raises `KeyError('NodeCount')`: `as_dict` writes the attributes under the
namedtuple field names (`node_count`, ...) while `from_dict` reads the wire
name `NodeCount`. -/
theorem roundtrip_from_dict_as_dict_raises_keyError
    (p q cc jn mem ch et lpi lri res st sub u nc : PyVal) :
    ComputeUsageRecord.from_dict
        (ComputeUsageRecord.init p q cc jn mem ch et lpi lri res st sub u
          nc).as_dict
      = Except.error (PyErr.keyError "NodeCount") := by
  have h : dictGet?
      (List.filter (fun p => isNotNoneB p.2)
        [("node_count", nc), ("cpu_core_count", cc), ("job_name", jn),
         ("memory", mem), ("queue", q)]) "NodeCount" = Option.none := by
    apply dictGet_filter_eq_none
    intro p hp
    fin_cases hp <;> simp
  simp [ComputeUsageRecord.from_dict, ComputeUsageRecord.as_dict,
        ComputeUsageRecord.init, PyVal.getItem, PyVal.getDefault, dictGet?,
        except_bind_ok, except_bind_error, h]

/-- Claim C2: the `Attributes` sub-mapping of `from_dict(d).as_dict` is
claimed to use the wire key names (`NodeCount`, `CpuCoreCount`, ...).  In
fact it uses the namedtuple field names: for the fully-populated conforming
wire record `sampleWire` the values are preserved but appear under
`node_count`, `cpu_core_count`, `job_name`, `memory`, `queue`, and looking
`NodeCount` up in the produced sub-mapping raises `KeyError`; for a
required-only record the optional attributes are omitted but the sub-mapping
key is again `node_count` (and a spurious tuple-valued `ParentRecordID`
appears). -/
theorem from_dict_as_dict_attribute_keys_are_field_names :
    (ComputeUsageRecord.from_dict sampleWire).map ComputeUsageRecord.as_dict
        = Except.ok (PyVal.dict
            [("Username", PyVal.str "jdoe"),
             ("LocalProjectID", PyVal.str "proj1"),
             ("LocalRecordID", PyVal.str "rec1"),
             ("Resource", PyVal.str "cluster1"),
             ("SubmitTime", PyVal.str "t0"),
             ("StartTime", PyVal.str "t1"),
             ("EndTime", PyVal.str "t2"),
             ("Charge", PyVal.str "10"),
             ("Attributes", PyVal.dict
                [("node_count", PyVal.str "2"),
                 ("cpu_core_count", PyVal.str "8"),
                 ("job_name", PyVal.str "job"),
                 ("memory", PyVal.str "64"),
                 ("queue", PyVal.str "normal")]),
             ("ParentRecordID", PyVal.tuple [PyVal.str "parent1"])])
    ∧ PyVal.getItem
        (PyVal.dict
          [("node_count", PyVal.str "2"),
           ("cpu_core_count", PyVal.str "8"),
           ("job_name", PyVal.str "job"),
           ("memory", PyVal.str "64"),
           ("queue", PyVal.str "normal")]) "NodeCount"
        = Except.error (PyErr.keyError "NodeCount")
    ∧ (ComputeUsageRecord.from_dict (PyVal.dict entriesRequiredOnly)).map
          ComputeUsageRecord.as_dict
        = Except.ok (PyVal.dict
            [("Username", PyVal.str "jdoe"),
             ("LocalProjectID", PyVal.str "proj1"),
             ("LocalRecordID", PyVal.str "rec1"),
             ("Resource", PyVal.str "cluster1"),
             ("SubmitTime", PyVal.str "t0"),
             ("StartTime", PyVal.str "t1"),
             ("EndTime", PyVal.str "t2"),
             ("Charge", PyVal.str "10"),
             ("Attributes", PyVal.dict [("node_count", PyVal.str "1")]),
             ("ParentRecordID", PyVal.tuple [PyVal.none])]) := by
  exact ⟨rfl, rfl, rfl⟩

/-- Claim C3: `as_dict` is claimed to contain `ParentRecordID` exactly when a
non-null `parent_record_id` was supplied, with the supplied scalar as value.
In fact, because `__init__` stores the 1-tuple `(parent_record_id,)`, the
`is not None` test always succeeds: for EVERY constructed record, including
one whose `parent_record_id` argument is `None`, `as_dict` contains
`ParentRecordID`, and its value is the tuple, not the supplied scalar. -/
theorem as_dict_always_contains_tuple_parent_record_id
    (p q cc jn mem ch et lpi lri res st sub u nc : PyVal) :
    PyVal.getItem
        ((ComputeUsageRecord.init p q cc jn mem ch et lpi lri res st sub u
            nc).as_dict) "ParentRecordID"
      = Except.ok (PyVal.tuple [p]) := by
  simp [ComputeUsageRecord.as_dict, ComputeUsageRecord.init, PyVal.getItem,
        dictGet?]

/-- Claim C4: `UsageMessage.from_dict` is claimed to reconstruct each entry
of a valid `Records` sequence.  In fact the comprehension body names the
undefined global `UsageRecord` (the module only defines
`ComputeUsageRecord`), so for every input whose `Records` list is non-empty
the call raises `NameError`. -/
theorem usage_message_from_dict_raises_nameError (ut d : PyVal)
    (rest : List PyVal) :
    UsageMessage.from_dict
        (PyVal.dict [("UsageType", ut), ("Records", PyVal.list (d :: rest))])
      = Except.error (PyErr.nameError "UsageRecord") := by
  simp [UsageMessage.from_dict, PyVal.getItem, dictGet?, pyIterLen,
        except_bind_ok]

/-- Claim C5: construction is claimed to normalize `usage_type` observably
via `as_dict`.  In fact `__init__` never assigns `self.usage_type`, so on
every message the constructor returns, `as_dict` raises
`AttributeError('usage_type')` instead of showing the normalized type. -/
theorem usage_message_as_dict_raises_attributeError (s : String)
    (recs : List ComputeUsageRecord) (m : UsageMessage)
    (h : UsageMessage.init s recs = Except.ok m) :
    UsageMessage.as_dict m = Except.error (PyErr.attributeError "usage_type") := by
  rw [init_ok_shape s recs m h]
  rfl

/-- Witness for C5 at a concrete input: construction with "compute" succeeds
and yields the record-only object, whose `as_dict` raises `AttributeError`. -/
theorem usage_message_as_dict_raises_attributeError_witness :
    UsageMessage.init "compute" []
        = Except.ok { records := [], usage_type := Option.none }
    ∧ UsageMessage.as_dict { records := [], usage_type := Option.none }
        = Except.error (PyErr.attributeError "usage_type") := by
  exact ⟨rfl,
    usage_message_as_dict_raises_attributeError "compute" []
      { records := [], usage_type := Option.none } rfl⟩

/-- Claim C6: `chunked(c)` is claimed to yield the ceil(n/c) contiguous
slices of the records.  In fact, on every message the constructor returns,
iterating the generator yields nothing for an empty record list and raises
`AttributeError('usage_type')` on the first chunk otherwise, because the
loop body reads the never-assigned `self.usage_type`. -/
theorem chunked_empty_ok_nonempty_raises_attributeError (s : String)
    (recs : List ComputeUsageRecord) (c : Nat) (m : UsageMessage)
    (hm : UsageMessage.init s recs = Except.ok m) (hc : 0 < c) :
    (recs = [] → UsageMessage.chunked m c = Except.ok []) ∧
    (recs ≠ [] → UsageMessage.chunked m c
        = Except.error (PyErr.attributeError "usage_type")) := by
  have hm2 := init_ok_shape s recs m hm
  subst hm2
  constructor
  · intro h
    subst h
    have h0 : (c - 1) / c = 0 := Nat.div_eq_of_lt (by omega)
    simp [UsageMessage.chunked, UsageMessage.chunkedRun, pyRange, h0,
          UsageMessage.chunkedLoop]
  · intro h
    cases recs with
    | nil => exact absurd rfl h
    | cons r rest =>
        have h1 : 1 ≤ (rest.length + c) / c := by
          rw [Nat.le_div_iff_mul_le hc]
          omega
        obtain ⟨k, hk⟩ : ∃ k, (rest.length + c) / c = k + 1 :=
          ⟨(rest.length + c) / c - 1, by omega⟩
        simp [UsageMessage.chunked, UsageMessage.chunkedRun, pyRange, hk,
              List.range_succ_eq_map, UsageMessage.chunkedLoop,
              UsageMessage.getUsageType]

/-- Witness for C6 at concrete inputs: a constructed message with no records
chunks to the empty sequence, one with a record raises `AttributeError`. -/
theorem chunked_empty_ok_nonempty_raises_attributeError_witness :
    UsageMessage.chunked { records := [], usage_type := Option.none } 1000
        = Except.ok []
    ∧ UsageMessage.chunked
          { records := [sampleRecord], usage_type := Option.none } 1000
        = Except.error (PyErr.attributeError "usage_type") := by
  constructor
  · exact (chunked_empty_ok_nonempty_raises_attributeError "compute" [] 1000
      { records := [], usage_type := Option.none } rfl (by decide)).1 rfl
  · exact (chunked_empty_ok_nonempty_raises_attributeError "compute"
      [sampleRecord] 1000
      { records := [sampleRecord], usage_type := Option.none } rfl
      (by decide)).2 (List.cons_ne_nil _ _)

/-- Claim C7: a usage type whose normalization lies outside
`{Compute, Storage, Adjustment}` makes construction raise the module's
dedicated invalid-usage-type exception (`UsageMessageException`, the error
the spec taxonomy calls InvalidUsageTypeError) with the offending normalized
value in the message, and a usage type normalizing into the set constructs
successfully without raising. -/
theorem init_validates_usage_type (s : String)
    (records : List ComputeUsageRecord) :
    (normalizeUsageType s ∉ (["Compute", "Storage", "Adjustment"] : List String) →
      UsageMessage.init s records
        = Except.error (PyErr.usageMessageException
            ("Invalid usage type " ++ normalizeUsageType s))) ∧
    (normalizeUsageType s ∈ (["Compute", "Storage", "Adjustment"] : List String) →
      UsageMessage.init s records
        = Except.ok { records := records, usage_type := Option.none }) := by
  have hmem : (normalizeUsageType s ∈ (["Compute", "Storage", "Adjustment"] : List String)) ↔
      (normalizeUsageType s = "Compute" ∨ normalizeUsageType s = "Storage" ∨
        normalizeUsageType s = "Adjustment") := by
    simp
  constructor <;> intro h
  · simp only [UsageMessage.init]
    rw [if_neg (fun hd => h (hmem.mpr hd))]
  · simp only [UsageMessage.init]
    rw [if_pos (hmem.mp h)]

/-- Witness for C7 at concrete inputs: "BOGUS" normalizes to "Bogus", outside
the set, so construction raises; "CoMpUtE" normalizes to "Compute" and
construction succeeds. -/
theorem init_validates_usage_type_witness :
    UsageMessage.init "BOGUS" []
        = Except.error (PyErr.usageMessageException "Invalid usage type Bogus")
    ∧ UsageMessage.init "CoMpUtE" []
        = Except.ok { records := [], usage_type := Option.none } := by
  constructor
  · exact (init_validates_usage_type "BOGUS" []).1 (by decide)
  · exact (init_validates_usage_type "CoMpUtE" []).2 (by decide)

/-- Claim C8: `from_dict` fails with a `KeyError` whenever a required key
(one of the eight top-level keys, the `Attributes` mapping itself, or
`NodeCount` inside it) is absent, and succeeds when all required keys are
present even if every optional key is absent. -/
theorem from_dict_requires_exactly_the_required_keys
    (entries : List (String × PyVal)) :
    ((∃ k, k ∈ requiredTop ∧ dictGet? entries k = Option.none) ∨
       dictGet? entries "Attributes" = Option.none ∨
       (∃ a, dictGet? entries "Attributes" = Option.some (PyVal.dict a) ∧
         dictGet? a "NodeCount" = Option.none) →
      ∃ k, ComputeUsageRecord.from_dict (PyVal.dict entries)
             = Except.error (PyErr.keyError k)) ∧
    ((∀ k, k ∈ requiredTop → (dictGet? entries k).isSome = true) →
      ∀ a, dictGet? entries "Attributes" = Option.some (PyVal.dict a) →
      (dictGet? a "NodeCount").isSome = true →
      exceptIsOk (ComputeUsageRecord.from_dict (PyVal.dict entries)) = true) := by
  constructor
  · intro hmiss
    cases h1 : dictGet? entries "Username" with
    | none =>
        exact ⟨"Username", by
          simp [ComputeUsageRecord.from_dict, PyVal.getItem, h1,
                except_bind_error]⟩
    | some v1 =>
    cases h2 : dictGet? entries "LocalProjectID" with
    | none =>
        exact ⟨"LocalProjectID", by
          simp [ComputeUsageRecord.from_dict, PyVal.getItem, h1, h2,
                except_bind_ok, except_bind_error]⟩
    | some v2 =>
    cases h3 : dictGet? entries "LocalRecordID" with
    | none =>
        exact ⟨"LocalRecordID", by
          simp [ComputeUsageRecord.from_dict, PyVal.getItem, h1, h2, h3,
                except_bind_ok, except_bind_error]⟩
    | some v3 =>
    cases h4 : dictGet? entries "Resource" with
    | none =>
        exact ⟨"Resource", by
          simp [ComputeUsageRecord.from_dict, PyVal.getItem, h1, h2, h3, h4,
                except_bind_ok, except_bind_error]⟩
    | some v4 =>
    cases h5 : dictGet? entries "SubmitTime" with
    | none =>
        exact ⟨"SubmitTime", by
          simp [ComputeUsageRecord.from_dict, PyVal.getItem, h1, h2, h3, h4,
                h5, except_bind_ok, except_bind_error]⟩
    | some v5 =>
    cases h6 : dictGet? entries "StartTime" with
    | none =>
        exact ⟨"StartTime", by
          simp [ComputeUsageRecord.from_dict, PyVal.getItem, h1, h2, h3, h4,
                h5, h6, except_bind_ok, except_bind_error]⟩
    | some v6 =>
    cases h7 : dictGet? entries "EndTime" with
    | none =>
        exact ⟨"EndTime", by
          simp [ComputeUsageRecord.from_dict, PyVal.getItem, h1, h2, h3, h4,
                h5, h6, h7, except_bind_ok, except_bind_error]⟩
    | some v7 =>
    cases h8 : dictGet? entries "Charge" with
    | none =>
        exact ⟨"Charge", by
          simp [ComputeUsageRecord.from_dict, PyVal.getItem, h1, h2, h3, h4,
                h5, h6, h7, h8, except_bind_ok, except_bind_error]⟩
    | some v8 =>
    cases hA : dictGet? entries "Attributes" with
    | none =>
        exact ⟨"Attributes", by
          simp [ComputeUsageRecord.from_dict, PyVal.getItem, h1, h2, h3, h4,
                h5, h6, h7, h8, hA, except_bind_ok, except_bind_error]⟩
    | some av =>
        rcases hmiss with ⟨k, hk, hknone⟩ | hnone | ⟨a, ha, hnc⟩
        · fin_cases hk <;> simp_all
        · rw [hA] at hnone
          cases hnone
        · rw [hA] at ha
          have hav : av = PyVal.dict a := by
            injection ha
          subst hav
          exact ⟨"NodeCount", by
            simp [ComputeUsageRecord.from_dict, PyVal.getItem, h1, h2, h3,
                  h4, h5, h6, h7, h8, hA, hnc, except_bind_ok,
                  except_bind_error]⟩
  · intro hreq a hA hnc
    obtain ⟨v1, h1⟩ := Option.isSome_iff_exists.mp (hreq "Username" (by decide))
    obtain ⟨v2, h2⟩ := Option.isSome_iff_exists.mp
      (hreq "LocalProjectID" (by decide))
    obtain ⟨v3, h3⟩ := Option.isSome_iff_exists.mp
      (hreq "LocalRecordID" (by decide))
    obtain ⟨v4, h4⟩ := Option.isSome_iff_exists.mp (hreq "Resource" (by decide))
    obtain ⟨v5, h5⟩ := Option.isSome_iff_exists.mp
      (hreq "SubmitTime" (by decide))
    obtain ⟨v6, h6⟩ := Option.isSome_iff_exists.mp (hreq "StartTime" (by decide))
    obtain ⟨v7, h7⟩ := Option.isSome_iff_exists.mp (hreq "EndTime" (by decide))
    obtain ⟨v8, h8⟩ := Option.isSome_iff_exists.mp (hreq "Charge" (by decide))
    obtain ⟨nc, hncv⟩ := Option.isSome_iff_exists.mp hnc
    simp [ComputeUsageRecord.from_dict, PyVal.getItem, PyVal.getDefault, h1,
          h2, h3, h4, h5, h6, h7, h8, hA, hncv, except_bind_ok, exceptIsOk]

/-- Witness for C8 at concrete inputs: dropping `Username` makes `from_dict`
raise a `KeyError`; the required-only record parses successfully. -/
theorem from_dict_requires_exactly_the_required_keys_witness :
    (∃ k, ComputeUsageRecord.from_dict (PyVal.dict entriesMissingUsername)
        = Except.error (PyErr.keyError k))
    ∧ exceptIsOk (ComputeUsageRecord.from_dict (PyVal.dict entriesRequiredOnly))
        = true := by
  constructor
  · exact (from_dict_requires_exactly_the_required_keys
      entriesMissingUsername).1 (Or.inl ⟨"Username", by decide, rfl⟩)
  · exact (from_dict_requires_exactly_the_required_keys
      entriesRequiredOnly).2
      (by intro k hk; fin_cases hk <;> rfl)
      [("NodeCount", PyVal.str "1")] rfl rfl

/-- Claim C9: running the `_chunked` generator to exhaustion leaves the
source message unchanged: the loop body only reads `self.records` and
`self.usage_type`, and the explicitly threaded receiver comes back equal to
the original, with the same record list and the same (absent) usage-type
attribute. -/
theorem chunked_does_not_mutate_source (m : UsageMessage) (c : Nat) :
    (UsageMessage.chunkedRun m c).2 = m ∧
    ((UsageMessage.chunkedRun m c).2).records = m.records ∧
    ((UsageMessage.chunkedRun m c).2).usage_type = m.usage_type := by
  have h := chunkedLoop_preserves_self m c (pyRange m.records.length c)
  exact ⟨h, by rw [UsageMessage.chunkedRun, h], by rw [UsageMessage.chunkedRun, h]⟩

/-- Claim C10: the record constructor validates nothing: it accepts
`node_count=None` (the model's `init` is total, mirroring the absence of any
check in `__init__`), and the resulting record's `as_dict` carries an
`Attributes` sub-mapping that omits the node count entirely, under either
naming. -/
theorem init_accepts_none_node_count_and_as_dict_omits_it
    (p q cc jn mem ch et lpi lri res st sub u : PyVal) :
    ∃ a, PyVal.getItem
          ((ComputeUsageRecord.init p q cc jn mem ch et lpi lri res st sub u
              PyVal.none).as_dict) "Attributes"
        = Except.ok (PyVal.dict a)
      ∧ dictGet? a "node_count" = Option.none
      ∧ dictGet? a "NodeCount" = Option.none := by
  refine ⟨List.filter (fun p => isNotNoneB p.2)
      [("cpu_core_count", cc), ("job_name", jn), ("memory", mem),
       ("queue", q)], ?_, ?_, ?_⟩
  · simp [ComputeUsageRecord.as_dict, ComputeUsageRecord.init, PyVal.getItem,
          dictGet?, List.filter, isNotNoneB]
  · exact dictGet_filter_eq_none _ _ _ (by intro p hp; fin_cases hp <;> simp)
  · exact dictGet_filter_eq_none _ _ _ (by intro p hp; fin_cases hp <;> simp)
